import Mathlib

/-
Verification of the LCV allocation service (src/main.py).

The embedding below translates the program into Lean:
  * a pandas DataFrame row becomes a `Row` record carrying exactly the
    columns the program reads (`Request_id`, `Route_id`, `DBS`, `Distance`,
    `Duration`, `MGS`, `date_only`);
  * the Python dict `lcv_stage_assignments` becomes an ordered association
    list `List (String × String)` (Python dicts preserve insertion order and
    have pairwise-distinct keys);
  * `sorted(..., key=...)` (Python's stable Timsort) is embedded as
    `List.insertionSort` on the non-decreasing key relation, which is a
    stable sort and hence produces the same list as any stable sort by the
    same key;
  * `DataFrame.sort_values(by='Duration', ascending=False)` is embedded
    following pandas' `nargsort`: the ascending argsort of the column is
    computed (stable for the array sizes where numpy's quicksort runs its
    insertion-sort path) and the whole indexer is then reversed
    (`indexer = indexer[::-1]`), so the descending order is the reverse of
    the stable ascending order;
  * the FastAPI endpooint `create_allocation` becomes a total function into
    an `ApiResult` sum, with `pd.to_datetime` abstracted as a
    `String → Option PyDate` parameter (it is an external library function;
    `none` stands for a raised `ValueError`).
-/

/-- Calendar date, the value of `pd.to_datetime(...).date()`. -/
structure PyDate where
  year : Int
  month : Nat
  day : Nat
deriving DecidableEq

/-- One row of the route dataset, with the columns read by `main.py`
(`date_only` is the preprocessed calendar-date column added by `load_data`). -/
structure Row where
  Request_id : String
  Route_id : String
  DBS : String
  Distance : Int
  Duration : Int
  MGS : String
  date_only : PyDate
deriving DecidableEq

/-- The output dict built for each route inside
`allocate_lcvs_to_routes_api` (lines 75-82 of main.py). -/
structure AllocationEntry where
  request_id : String
  Route_id : String
  DBS : String
  Distance : Int
  Duration : Int
  Allocated_LCV : String
deriving DecidableEq

/-- The `stage_priority` dict of main.py (lines 56-60), as a lookup:
`some r` is a hit, `none` a miss.  Note the first two stage names contain
the Unicode en-dash while the third contains a plain ASCII hyphen, exactly
as in the source. -/
def stage_priority (stage : String) : Option Nat :=
  if stage = "Stage 3 (Filled – Waiting Area/Moving to DBS)" then some 1
  else if stage = "Stage 2 (Filling – Safe Zone)" then some 2
  else if stage = "Stage 1 (Empty - Waiting Area)" then some 3
  else none

/-- The sort key of line 66: `stage_priority.get(lcv_assignments.get(lcv), 99)`.
A missing or unrecognized stage yields the default 99. -/
def lcvRank (lcv_assignments : List (String × String)) (lcv : String) : Nat :=
  (((lcv_assignments.lookup lcv).bind stage_priority)).getD 99

/-- Lines 63-67: `sorted(list(lcv_assignments.keys()), key=rank)`.
Python's `sorted` is stable; it is embedded as the (stable) insertion sort
on the non-decreasing rank relation. -/
def prioritized_lcvs (lcv_assignments : List (String × String)) : List String :=
  List.insertionSort
    (fun a b => lcvRank lcv_assignments a ≤ lcvRank lcv_assignments b)
    (lcv_assignments.map Prod.fst)

/-- Line 51: `data[data['Request_id'].isin(request_ids)]`, keeping the
dataset row order. -/
def selected_data (data : List Row) (request_ids : List String) : List Row :=
  data.filter (fun r => request_ids.contains r.Request_id)

/-- Line 70: `selected_data.sort_values(by='Duration', ascending=False)`.
pandas computes the ascending argsort of the column (numpy default
quicksort, i.e. introsort) and then reverses the whole indexer
(`nargsort`: `indexer = indexer[::-1]`).  For arrays of at most 16
elements numpy's quicksort runs only its insertion-sort path, which is
stable, so on that regime the program is deterministic and equals the
reverse of the stable ascending sort modelled here.  On larger arrays the
partitioning phase may permute equal keys arbitrarily, so the program
fixes no particular tie order there; theorems that depend on tie order
are therefore stated only for selections of at most 16 rows, while
tie-insensitive consequences (length, multiset, duration monotonicity)
hold for any correct descending permutation and hence for the program on
every input. -/
def sorted_routes_desc (rows : List Row) : List Row :=
  (List.insertionSort (fun a b => a.Duration ≤ b.Duration) rows).reverse

/-- The `allocation_info` dict of lines 75-82, with the given value of
`Allocated_LCV` (the default is the sentinel string `"Pending"`). -/
def mkEntry (route : Row) (lcv : String) : AllocationEntry :=
  { request_id := route.Request_id
    Route_id := route.Route_id
    DBS := route.DBS
    Distance := route.Distance
    Duration := route.Duration
    Allocated_LCV := lcv }

/-- The `for _, route in sorted_routes_desc.iterrows()` loop of lines 74-86:
each route takes `lcvs_to_allocate.pop(0)` if the queue is nonempty, else
the default `"Pending"`. -/
def allocLoop : List Row → List String → List AllocationEntry
  | [], _ => []
  | route :: rs, [] => mkEntry route "Pending" :: allocLoop rs []
  | route :: rs, v :: vs => mkEntry route v :: allocLoop rs vs

/-- Lines 41-88: the core allocation function `allocate_lcvs_to_routes_api`. -/
def allocate_lcvs_to_routes_api (data : List Row) (request_ids : List String)
    (lcv_assignments : List (String × String)) : List AllocationEntry :=
  let sel := selected_data data request_ids
  if sel.isEmpty then []
  else allocLoop (sorted_routes_desc sel) (prioritized_lcvs lcv_assignments)

/-- Outcome of one call of the endpoint: a JSON list (HTTP 200) or an
`HTTPException` with its status code and detail string. -/
inductive ApiResult where
  | ok (entries : List AllocationEntry)
  | err (statusCode : Nat) (detail : String)
deriving DecidableEq

/-- Lines 91-121: the `/allocate/` endpoint `create_allocation`.
`parseDate` abstracts `pd.to_datetime(...).date()` (an external pandas
function); `parseDate s = none` models the `ValueError` branch.  `df` is
the module-level DataFrame, `none` if `load_data` failed. -/
def create_allocation (parseDate : String → Option PyDate) (df : Option (List Row))
    (selected_date selected_mgs : String) (selected_request_ids : List String)
    (lcv_stage_assignments : List (String × String)) : ApiResult :=
  match df with
  | none => ApiResult.err 500 "Data could not be loaded. API is non-operational."
  | some rows =>
    match parseDate selected_date with
    | none => ApiResult.err 400 "Invalid date format. Please use YYYY-MM-DD."
    | some request_date =>
      let filtered_df := rows.filter
        (fun r => decide (r.date_only = request_date) && (r.MGS == selected_mgs))
      if filtered_df.isEmpty then
        ApiResult.err 404 "No data found for the selected date and MGS."
      else
        let allocation_result :=
          allocate_lcvs_to_routes_api filtered_df selected_request_ids lcv_stage_assignments
        if allocation_result.isEmpty then
          ApiResult.err 404 "None of the selected request_ids were found in the dataset for the given date and MGS."
        else ApiResult.ok allocation_result

/-- Heap-like state for the imperative reading of the allocation loop:
the two inputs, the working queue `lcvs_to_allocate` (the only thing the
loop mutates, via `pop(0)`), and the accumulated `allocations` list. -/
structure AllocState where
  data : List Row
  request_ids : List String
  lcv_assignments : List (String × String)
  lcvs_to_allocate : List String
  allocations : List AllocationEntry
deriving DecidableEq

/-- One iteration of the route loop in imperative form: build the entry,
pop the queue if nonempty, append to `allocations`.  Only the
`lcvs_to_allocate` and `allocations` fields are written. -/
def allocStep (s : AllocState) (route : Row) : AllocState :=
  match s.lcvs_to_allocate with
  | [] => { s with allocations := s.allocations ++ [mkEntry route "Pending"] }
  | v :: rest =>
      { s with lcvs_to_allocate := rest
               allocations := s.allocations ++ [mkEntry route v] }

/-- The whole body of `allocate_lcvs_to_routes_api` in state-passing form,
returning the final state (inputs included) so that frame conditions are
expressible. -/
def allocate_run (data : List Row) (ids : List String)
    (asg : List (String × String)) : AllocState :=
  let sel := selected_data data ids
  let s0 : AllocState := ⟨data, ids, asg, prioritized_lcvs asg, []⟩
  if sel.isEmpty then s0 else (sorted_routes_desc sel).foldl allocStep s0

example : stage_priority "Stage 2 (Filling – Safe Zone)" = some 2 := by decide

example : lcvRank [("v1", "Stage 9")] "v1" = 99 := by decide

/-! ### Helper lemmas about the stable key sort -/

/-- Inserting `x` with `orderedInsert` on the non-decreasing key relation
commutes with filtering a fixed key value: the elements skipped over have
strictly smaller keys, so when `x` hits the key it lands in front of all
filtered elements, and otherwise the filtered list is untouched. -/
theorem filter_orderedInsert_key {α κ : Type} [LinearOrder κ] (key : α → κ)
    (k : κ) (x : α) (l : List α) :
    (List.orderedInsert (fun a b => key a ≤ key b) x l).filter
        (fun a => decide (key a = k)) =
      if key x = k then x :: l.filter (fun a => decide (key a = k))
      else l.filter (fun a => decide (key a = k)) := by
  induction l with
  | nil =>
    by_cases hk : key x = k <;>
      simp [List.orderedInsert, List.filter_cons, hk]
  | cons y ys ih =>
    simp only [List.orderedInsert]
    by_cases hxy : key x ≤ key y
    · rw [if_pos hxy]
      by_cases hk : key x = k <;> by_cases hyk : key y = k <;>
        simp [List.filter_cons, hk, hyk]
    · rw [if_neg hxy]
      have hyx : key y < key x := lt_of_not_le hxy
      by_cases hk : key x = k
      · have hyk : ¬ key y = k := ne_of_lt (hk ▸ hyx)
        simp [List.filter_cons, hk, hyk, ih]
      · by_cases hyk : key y = k <;>
          simp [List.filter_cons, hk, hyk, ih]

/-- Stability of the embedded stable sort: for every key value the
subsequence of elements carrying that key is unchanged. -/
theorem filter_insertionSort_key {α κ : Type} [LinearOrder κ] (key : α → κ)
    (k : κ) (l : List α) :
    (List.insertionSort (fun a b => key a ≤ key b) l).filter
        (fun a => decide (key a = k)) =
      l.filter (fun a => decide (key a = k)) := by
  induction l with
  | nil => rfl
  | cons x xs ih =>
    rw [List.insertionSort, filter_orderedInsert_key, ih]
    by_cases hk : key x = k <;> simp [List.filter_cons, hk]

/-- The embedded stable sort sorts: keys are non-decreasing along it. -/
theorem sorted_insertionSort_key {α κ : Type} [LinearOrder κ] (key : α → κ)
    (l : List α) :
    (List.insertionSort (fun a b => key a ≤ key b) l).Pairwise
      (fun a b => key a ≤ key b) := by
  haveI : IsTotal α (fun a b => key a ≤ key b) :=
    ⟨fun a b => le_total (key a) (key b)⟩
  haveI : IsTrans α (fun a b => key a ≤ key b) :=
    ⟨fun _ _ _ hab hbc => le_trans hab hbc⟩
  exact List.sorted_insertionSort _ l

/-! ### Helper lemmas about the allocation loop -/

theorem allocLoop_length :
    ∀ (rows : List Row) (q : List String),
      (allocLoop rows q).length = rows.length
  | [], _ => rfl
  | _ :: rs, [] => congrArg Nat.succ (allocLoop_length rs [])
  | _ :: rs, _ :: vs => congrArg Nat.succ (allocLoop_length rs vs)

/-- The loop emits one entry per route positionally; any projection that
only looks at the route fields of an entry sees exactly the route list. -/
theorem allocLoop_map {β : Type} (f : Row → β) (g : AllocationEntry → β)
    (h : ∀ r v, g (mkEntry r v) = f r) :
    ∀ (rows : List Row) (q : List String),
      (allocLoop rows q).map g = rows.map f
  | [], _ => rfl
  | r :: rs, [] => by
      simp [allocLoop, h, allocLoop_map f g h rs []]
  | r :: rs, _ :: vs => by
      simp [allocLoop, h, allocLoop_map f g h rs vs]

/-- Filtered-and-projected version of the positional correspondence. -/
theorem allocLoop_filter_map {β : Type} (p : Row → Bool)
    (pe : AllocationEntry → Bool) (f : Row → β) (g : AllocationEntry → β)
    (hp : ∀ r v, pe (mkEntry r v) = p r) (hf : ∀ r v, g (mkEntry r v) = f r) :
    ∀ (rows : List Row) (q : List String),
      ((allocLoop rows q).filter pe).map g = (rows.filter p).map f
  | [], _ => rfl
  | r :: rs, [] => by
      by_cases hr : p r <;>
        simp [allocLoop, List.filter_cons, hp, hf, hr,
          allocLoop_filter_map p pe f g hp hf rs []]
  | r :: rs, _ :: vs => by
      by_cases hr : p r <;>
        simp [allocLoop, List.filter_cons, hp, hf, hr,
          allocLoop_filter_map p pe f g hp hf rs vs]

/-- The `Allocated_LCV` column of the loop output: the queue is consumed
from the front, then the sentinel is repeated. -/
theorem allocLoop_map_lcv :
    ∀ (rows : List Row) (q : List String),
      (allocLoop rows q).map (fun e => e.Allocated_LCV) =
        q.take rows.length ++
          List.replicate (rows.length - q.length) "Pending"
  | [], q => by simp [allocLoop]
  | r :: rs, [] => by
      simp [allocLoop, mkEntry, allocLoop_map_lcv rs [], List.replicate_succ]
  | r :: rs, v :: vs => by
      simp [allocLoop, mkEntry, allocLoop_map_lcv rs vs,
        Nat.succ_sub_succ, List.take_succ_cons]

/-- Length bookkeeping for the sorted route list. -/
theorem length_sorted_routes_desc (rows : List Row) :
    (sorted_routes_desc rows).length = rows.length := by
  simp [sorted_routes_desc, List.length_insertionSort]

/-- The sorted route list is a permutation of the selection. -/
theorem sorted_routes_desc_perm (rows : List Row) :
    List.Perm (sorted_routes_desc rows) rows :=
  (List.reverse_perm _).trans (List.perm_insertionSort _ rows)

/-- The prioritized queue is a permutation of the mapping's key list. -/
theorem prioritized_lcvs_perm (asg : List (String × String)) :
    List.Perm (prioritized_lcvs asg) (asg.map Prod.fst) :=
  List.perm_insertionSort _ _

theorem length_prioritized_lcvs (asg : List (String × String)) :
    (prioritized_lcvs asg).length = asg.length := by
  simp [prioritized_lcvs, List.length_insertionSort]

/-- The allocator output length equals the selection length. -/
theorem allocate_length (data : List Row) (ids : List String)
    (asg : List (String × String)) :
    (allocate_lcvs_to_routes_api data ids asg).length =
      (selected_data data ids).length := by
  unfold allocate_lcvs_to_routes_api
  by_cases hsel : (selected_data data ids).isEmpty
  · simp [hsel, List.isEmpty_iff.mp hsel]
  · simp [hsel, allocLoop_length, length_sorted_routes_desc]

/-- The allocator returns `[]` exactly when the selection is empty. -/
theorem allocate_eq_nil_iff (data : List Row) (ids : List String)
    (asg : List (String × String)) :
    allocate_lcvs_to_routes_api data ids asg = [] ↔
      selected_data data ids = [] := by
  constructor
  · intro h
    have := allocate_length data ids asg
    rw [h] at this
    exact List.length_eq_zero.mp this.symm
  · intro h
    unfold allocate_lcvs_to_routes_api
    simp [h]

/-! ### Concrete fixtures used by witnesses and counterexamples -/

def dateJul16 : PyDate := ⟨2024, 7, 16⟩

def rowR1 : Row :=
  { Request_id := "r1", Route_id := "R001", DBS := "DBS1", Distance := 10,
    Duration := 90, MGS := "MGS1", date_only := dateJul16 }

def rowR2 : Row :=
  { Request_id := "r2", Route_id := "R002", DBS := "DBS2", Distance := 12,
    Duration := 50, MGS := "MGS1", date_only := dateJul16 }

def rowE1 : Row :=
  { Request_id := "e1", Route_id := "R101", DBS := "DBS1", Distance := 7,
    Duration := 50, MGS := "MGS1", date_only := dateJul16 }

def rowE2 : Row :=
  { Request_id := "e2", Route_id := "R102", DBS := "DBS1", Distance := 8,
    Duration := 50, MGS := "MGS1", date_only := dateJul16 }

def asgW : List (String × String) :=
  [("v1", "Stage 1 (Empty - Waiting Area)"),
   ("v2", "Stage 3 (Filled – Waiting Area/Moving to DBS)"),
   ("v3", "Stage 9"),
   ("v4", "Stage 9")]

/-! ### Claim theorems -/

/-- C1: the allocator ranks each vehicle by its stage string via the fixed
lookup — Stage 3 gets rank 1, Stage 2 rank 2, Stage 1 rank 3, any other
string rank 99 — and sorts the vehicle identifiers ascending by rank with a
stable sort: the result is a permutation of the key list, ranks are
non-decreasing along it, and for every rank value the identifiers carrying
that rank (including rank 99, the unrecognized stages) keep the original
insertion order of the mapping. -/
theorem claim_C1 (asg : List (String × String)) :
    (∀ lcv, asg.lookup lcv =
        some "Stage 3 (Filled – Waiting Area/Moving to DBS)" →
        lcvRank asg lcv = 1)
    ∧ (∀ lcv, asg.lookup lcv = some "Stage 2 (Filling – Safe Zone)" →
        lcvRank asg lcv = 2)
    ∧ (∀ lcv, asg.lookup lcv = some "Stage 1 (Empty - Waiting Area)" →
        lcvRank asg lcv = 3)
    ∧ (∀ lcv stage, asg.lookup lcv = some stage →
        stage ≠ "Stage 3 (Filled – Waiting Area/Moving to DBS)" →
        stage ≠ "Stage 2 (Filling – Safe Zone)" →
        stage ≠ "Stage 1 (Empty - Waiting Area)" →
        lcvRank asg lcv = 99)
    ∧ List.Perm (prioritized_lcvs asg) (asg.map Prod.fst)
    ∧ (prioritized_lcvs asg).Pairwise
        (fun a b => lcvRank asg a ≤ lcvRank asg b)
    ∧ (∀ k : Nat,
        (prioritized_lcvs asg).filter (fun v => decide (lcvRank asg v = k)) =
          (asg.map Prod.fst).filter (fun v => decide (lcvRank asg v = k))) := by
  refine ⟨fun lcv h => ?_, fun lcv h => ?_, fun lcv h => ?_,
    fun lcv stage h h3 h2 h1 => ?_, prioritized_lcvs_perm asg,
    sorted_insertionSort_key (lcvRank asg) _,
    fun k => filter_insertionSort_key (lcvRank asg) k _⟩
  · simp [lcvRank, h, stage_priority]
  · simp [lcvRank, h, stage_priority]
  · simp [lcvRank, h, stage_priority]
  · simp [lcvRank, h, stage_priority, h3, h2, h1]

/-- Witness for C1 at a concrete mapping: the Stage 3 vehicle gets rank 1,
and the two unrecognized-stage vehicles keep their insertion order among
the rank-99 identifiers. -/
theorem claim_C1_witness :
    lcvRank asgW "v2" = 1
    ∧ (prioritized_lcvs asgW).filter
        (fun v => decide (lcvRank asgW v = 99)) = ["v3", "v4"] := by
  have h := claim_C1 asgW
  exact ⟨h.1 "v2" (by decide), (h.2.2.2.2.2.2 99).trans (by decide)⟩

/-- The route-identifying fields of a dataset row. -/
def rowCore (r : Row) : String × String × String × Int × Int :=
  (r.Request_id, r.Route_id, r.DBS, r.Distance, r.Duration)

/-- The route-identifying fields of an output entry. -/
def entryCore (e : AllocationEntry) : String × String × String × Int × Int :=
  (e.request_id, e.Route_id, e.DBS, e.Distance, e.Duration)

/-- C3: the allocator output has exactly one `AllocationEntry` per selected
route — the lengths agree, the multiset of route fields carried by the
entries is exactly the multiset of selected rows (nothing dropped or
duplicated), and an empty selection yields the empty output without
error. -/
theorem claim_C3 (data : List Row) (ids : List String)
    (asg : List (String × String)) :
    (allocate_lcvs_to_routes_api data ids asg).length =
        (selected_data data ids).length
    ∧ List.Perm ((allocate_lcvs_to_routes_api data ids asg).map entryCore)
        ((selected_data data ids).map rowCore)
    ∧ (selected_data data ids = [] →
        allocate_lcvs_to_routes_api data ids asg = []) := by
  refine ⟨allocate_length data ids asg, ?_,
    fun h => (allocate_eq_nil_iff data ids asg).mpr h⟩
  unfold allocate_lcvs_to_routes_api
  by_cases hsel : (selected_data data ids).isEmpty
  · simp [hsel, List.isEmpty_iff.mp hsel]
  · rw [if_neg hsel]
    rw [allocLoop_map rowCore entryCore (fun r v => rfl)]
    exact (sorted_routes_desc_perm _).map rowCore

/-- Witness for C3: an empty selection gives the empty output, and a
two-route selection gives two entries. -/
theorem claim_C3_witness :
    allocate_lcvs_to_routes_api [rowR1] [] [] = []
    ∧ (allocate_lcvs_to_routes_api [rowR1, rowR2] ["r1", "r2"] []).length = 2 := by
  have h1 := claim_C3 [rowR1] [] []
  have h2 := claim_C3 [rowR1, rowR2] ["r1", "r2"] []
  exact ⟨h1.2.2 (by decide), h2.1.trans (by decide)⟩

/-- C4: the sequence of `Duration` values in the allocator output is
non-increasing. -/
theorem claim_C4 (data : List Row) (ids : List String)
    (asg : List (String × String)) :
    ((allocate_lcvs_to_routes_api data ids asg).map
        (fun e => e.Duration)).Pairwise (fun x y => y ≤ x) := by
  unfold allocate_lcvs_to_routes_api
  by_cases hsel : (selected_data data ids).isEmpty
  · simp [hsel]
  · rw [if_neg hsel]
    rw [allocLoop_map (fun r => r.Duration) (fun e => e.Duration)
      (fun r v => rfl)]
    rw [List.pairwise_map]
    unfold sorted_routes_desc
    rw [List.pairwise_reverse]
    exact sorted_insertionSort_key (fun r : Row => r.Duration) _

/-- In the nonempty-selection branch the allocator is the loop applied to
the sorted routes and the prioritized queue. -/
theorem allocate_eq_allocLoop (data : List Row) (ids : List String)
    (asg : List (String × String))
    (h : ¬ (selected_data data ids).isEmpty = true) :
    allocate_lcvs_to_routes_api data ids asg =
      allocLoop (sorted_routes_desc (selected_data data ids))
        (prioritized_lcvs asg) := by
  unfold allocate_lcvs_to_routes_api
  rw [if_neg h]

/-- The `Allocated_LCV` column of the allocator output: a prefix of the
prioritized queue followed by copies of the sentinel. -/
theorem allocate_map_lcv (data : List Row) (ids : List String)
    (asg : List (String × String))
    (h : ¬ (selected_data data ids).isEmpty = true) :
    (allocate_lcvs_to_routes_api data ids asg).map
        (fun e => e.Allocated_LCV) =
      (prioritized_lcvs asg).take (selected_data data ids).length ++
        List.replicate
          ((selected_data data ids).length - asg.length) "Pending" := by
  rw [allocate_eq_allocLoop data ids asg h, allocLoop_map_lcv,
    length_sorted_routes_desc, length_prioritized_lcvs]

/-- Along the allocator output, entries whose `Allocated_LCV` is a genuine
vehicle identifier carry non-decreasing ranks (requires that no vehicle is
itself named like the sentinel). -/
theorem allocate_pairwise_rank (data : List Row) (ids : List String)
    (asg : List (String × String))
    (hp : "Pending" ∉ asg.map Prod.fst) :
    (allocate_lcvs_to_routes_api data ids asg).Pairwise
      (fun e1 e2 => e1.Allocated_LCV ∈ asg.map Prod.fst →
        e2.Allocated_LCV ∈ asg.map Prod.fst →
        lcvRank asg e1.Allocated_LCV ≤ lcvRank asg e2.Allocated_LCV) := by
  by_cases hsel : (selected_data data ids).isEmpty
  · unfold allocate_lcvs_to_routes_api
    simp [hsel]
  · have hL : ((allocate_lcvs_to_routes_api data ids asg).map
        (fun e => e.Allocated_LCV)).Pairwise
        (fun v w => v ∈ asg.map Prod.fst → w ∈ asg.map Prod.fst →
          lcvRank asg v ≤ lcvRank asg w) := by
      rw [allocate_map_lcv data ids asg hsel]
      refine List.pairwise_append.mpr ⟨?_, ?_, ?_⟩
      · exact List.Pairwise.sublist (List.take_sublist _ _)
          ((sorted_insertionSort_key (lcvRank asg) (asg.map Prod.fst)).imp
            (fun h _ _ => h))
      · exact List.pairwise_replicate.mpr
          (Or.inr (fun hmem _ => absurd hmem hp))
      · intro v hv w hw hv2 hw2
        exact absurd ((List.eq_of_mem_replicate hw) ▸ hw2) hp
    exact List.pairwise_map.mp hL

/-- C6 counterexample: two selected routes with equal `Duration` appear in
the output in the reverse of their dataset order, because pandas'
descending `sort_values` reverses the stable ascending order wholesale.
The claim that ties preserve the original dataset order is false here. -/
theorem claim_C6_counterexample :
    rowE1.Duration = rowE2.Duration
    ∧ (allocate_lcvs_to_routes_api [rowE1, rowE2] ["e1", "e2"] []).map
        (fun e => e.Route_id) = ["R102", "R101"]
    ∧ ¬ ((allocate_lcvs_to_routes_api [rowE1, rowE2] ["e1", "e2"] []).map
          (fun e => e.Route_id) = [rowE1, rowE2].map (fun r => r.Route_id)) := by
  decide

/-- C6 amended: the route sort by descending duration does not preserve
the dataset order of equal-duration routes.  On selections of at most 16
rows — where numpy's quicksort runs only its stable insertion-sort path,
so that the program's tie handling is deterministic (the ascending argsort
is stable and pandas reverses the whole indexer) — ties come out in
exactly the reverse of their dataset order: for every duration value, the
output entries carrying that duration list the selected routes with that
duration in reverse dataset order.  On larger selections the unstable
partitioning phase fixes no particular tie order, so nothing is asserted
there. -/
theorem claim_C6_amended (data : List Row) (ids : List String)
    (asg : List (String × String)) (k : Int)
    (_hsmall : (selected_data data ids).length ≤ 16) :
    ((allocate_lcvs_to_routes_api data ids asg).filter
        (fun e => decide (e.Duration = k))).map (fun e => e.Route_id)
      = (((selected_data data ids).filter
            (fun r => decide (r.Duration = k))).map
          (fun r => r.Route_id)).reverse := by
  unfold allocate_lcvs_to_routes_api
  by_cases hsel : (selected_data data ids).isEmpty
  · simp [hsel, List.isEmpty_iff.mp hsel]
  · rw [if_neg hsel]
    rw [allocLoop_filter_map (fun r => decide (r.Duration = k))
      (fun e => decide (e.Duration = k)) (fun r => r.Route_id)
      (fun e => e.Route_id) (fun r v => rfl) (fun r v => rfl)]
    unfold sorted_routes_desc
    rw [List.filter_reverse, List.map_reverse,
      filter_insertionSort_key (fun r : Row => r.Duration) k]

/-- Witness for C6 (amended): a two-row selection (well inside the
deterministic regime) with equal durations, whose tied routes come out in
reverse dataset order. -/
theorem claim_C6_witness :
    (selected_data [rowE1, rowE2] ["e1", "e2"]).length ≤ 16
    ∧ ((allocate_lcvs_to_routes_api [rowE1, rowE2] ["e1", "e2"] []).filter
          (fun e => decide (e.Duration = 50))).map (fun e => e.Route_id)
        = (((selected_data [rowE1, rowE2] ["e1", "e2"]).filter
              (fun r => decide (r.Duration = 50))).map
            (fun r => r.Route_id)).reverse :=
  ⟨by decide, claim_C6_amended [rowE1, rowE2] ["e1", "e2"] [] 50 (by decide)⟩

/-- C2 counterexample: with the vehicle identifier "Pending" in the
mapping, that identifier (a vehicle identifier from the mapping) appears in
the `Allocated_LCV` field of two different entries: once as the assigned
vehicle and once as the sentinel of an unassigned route. -/
theorem claim_C2_counterexample :
    "Pending" ∈ ([("Pending", "Stage 9")].map Prod.fst)
    ∧ ¬ ((allocate_lcvs_to_routes_api [rowR1, rowR2] ["r1", "r2"]
            [("Pending", "Stage 9")]).countP
          (fun e => e.Allocated_LCV == "Pending") ≤ 1) := by
  decide

/-- C2 amended: provided the mapping's keys are pairwise distinct (as
Python dict keys are) and no vehicle identifier equals the sentinel string
"Pending", each vehicle identifier appears in at most one entry's
`Allocated_LCV` field, and whenever two entries both carry vehicle
identifiers, the entry with the strictly lower rank comes at an
equal-or-earlier position of the duration-descending output. -/
theorem claim_C2_amended (data : List Row) (ids : List String)
    (asg : List (String × String))
    (hnd : (asg.map Prod.fst).Nodup)
    (hp : "Pending" ∉ asg.map Prod.fst) :
    (∀ v ∈ asg.map Prod.fst,
        (allocate_lcvs_to_routes_api data ids asg).countP
          (fun e => e.Allocated_LCV == v) ≤ 1)
    ∧ (∀ i j (hi : i < (allocate_lcvs_to_routes_api data ids asg).length)
          (hj : j < (allocate_lcvs_to_routes_api data ids asg).length),
        ((allocate_lcvs_to_routes_api data ids asg).get ⟨i, hi⟩).Allocated_LCV
            ∈ asg.map Prod.fst →
        ((allocate_lcvs_to_routes_api data ids asg).get ⟨j, hj⟩).Allocated_LCV
            ∈ asg.map Prod.fst →
        lcvRank asg
            (((allocate_lcvs_to_routes_api data ids asg).get
              ⟨i, hi⟩).Allocated_LCV) <
          lcvRank asg
            (((allocate_lcvs_to_routes_api data ids asg).get
              ⟨j, hj⟩).Allocated_LCV) →
        i ≤ j) := by
  constructor
  · intro v hv
    by_cases hsel : (selected_data data ids).isEmpty
    · unfold allocate_lcvs_to_routes_api
      simp [hsel]
    · have hvp : v ≠ "Pending" := fun h => hp (h ▸ hv)
      have h1 : (allocate_lcvs_to_routes_api data ids asg).countP
          (fun e => e.Allocated_LCV == v)
          = ((allocate_lcvs_to_routes_api data ids asg).map
              (fun e => e.Allocated_LCV)).countP (fun s => s == v) := by
        rw [List.countP_map]
        rfl
      rw [h1, allocate_map_lcv data ids asg hsel, List.countP_append]
      have h2 : (List.replicate
          ((selected_data data ids).length - asg.length) "Pending").countP
          (fun s => s == v) = 0 :=
        List.countP_eq_zero.mpr (fun a ha => by
          simp only [beq_iff_eq]
          exact fun h => hvp ((List.eq_of_mem_replicate ha) ▸ h).symm)
      have h3 : ((prioritized_lcvs asg).take
          (selected_data data ids).length).countP (fun s => s == v) ≤ 1 := by
        calc ((prioritized_lcvs asg).take
              (selected_data data ids).length).countP (fun s => s == v)
            ≤ (prioritized_lcvs asg).countP (fun s => s == v) :=
              (List.take_sublist _ _).countP_le _
          _ = (asg.map Prod.fst).countP (fun s => s == v) :=
              (prioritized_lcvs_perm asg).countP_eq _
          _ ≤ 1 := List.nodup_iff_count_le_one.mp hnd v
      omega
  · intro i j hi hj hvi hvj hrank
    by_contra hij
    push_neg at hij
    have hpw := allocate_pairwise_rank data ids asg hp
    have := List.pairwise_iff_get.mp hpw ⟨j, hj⟩ ⟨i, hi⟩ hij
    exact absurd (this hvj hvi) (not_le.mpr hrank)

/-- Witness for C2 (amended): a vehicle with an unrecognized stage is
assigned to exactly one entry. -/
theorem claim_C2_witness :
    (allocate_lcvs_to_routes_api [rowR1, rowR2] ["r1", "r2"]
        [("v1", "Stage 9")]).countP
      (fun e => e.Allocated_LCV == "v1") ≤ 1 := by
  exact (claim_C2_amended [rowR1, rowR2] ["r1", "r2"] [("v1", "Stage 9")]
    (by decide) (by decide)).1 "v1" (by decide)

/-- C5 counterexample: with a vehicle literally named "Pending" and one
vehicle fewer than the selected routes, the number of entries whose
`Allocated_LCV` equals "Pending" is 2, not `len(R) - len(V) = 1`. -/
theorem claim_C5_counterexample :
    [("Pending", "Stage 2 (Filling – Safe Zone)")].length
        < (selected_data [rowR1, rowR2] ["r1", "r2"]).length
    ∧ ¬ ((allocate_lcvs_to_routes_api [rowR1, rowR2] ["r1", "r2"]
            [("Pending", "Stage 2 (Filling – Safe Zone)")]).countP
          (fun e => e.Allocated_LCV == "Pending")
        = (selected_data [rowR1, rowR2] ["r1", "r2"]).length
            - [("Pending", "Stage 2 (Filling – Safe Zone)")].length) := by
  decide

/-- C5 amended: provided no vehicle identifier equals the sentinel string
"Pending", when there are fewer vehicles than selected routes exactly
`len(R) - len(V)` entries carry the sentinel, and they are exactly the
last entries of the duration-sorted output (every entry after position
`len(V)` is pending, no entry before it is). -/
theorem claim_C5_amended (data : List Row) (ids : List String)
    (asg : List (String × String))
    (hp : "Pending" ∉ asg.map Prod.fst)
    (hlt : asg.length < (selected_data data ids).length) :
    (allocate_lcvs_to_routes_api data ids asg).countP
        (fun e => e.Allocated_LCV == "Pending")
      = (selected_data data ids).length - asg.length
    ∧ (∀ e ∈ (allocate_lcvs_to_routes_api data ids asg).drop asg.length,
        e.Allocated_LCV = "Pending")
    ∧ (∀ e ∈ (allocate_lcvs_to_routes_api data ids asg).take asg.length,
        e.Allocated_LCV ≠ "Pending") := by
  have hne : ¬ (selected_data data ids).isEmpty = true := by
    rw [List.isEmpty_iff]
    intro h
    rw [h] at hlt
    simp at hlt
  have hqlen : (prioritized_lcvs asg).length = asg.length :=
    length_prioritized_lcvs asg
  have hmapped := allocate_map_lcv data ids asg hne
  have htake : (prioritized_lcvs asg).take (selected_data data ids).length
      = prioritized_lcvs asg :=
    List.take_of_length_le (by omega)
  rw [htake] at hmapped
  refine ⟨?_, ?_, ?_⟩
  · have h1 : (allocate_lcvs_to_routes_api data ids asg).countP
        (fun e => e.Allocated_LCV == "Pending")
        = ((allocate_lcvs_to_routes_api data ids asg).map
            (fun e => e.Allocated_LCV)).countP (fun s => s == "Pending") := by
      rw [List.countP_map]
      rfl
    have h2 : (prioritized_lcvs asg).countP (fun s => s == "Pending") = 0 :=
      List.countP_eq_zero.mpr (fun a ha => by
        have hak : a ∈ asg.map Prod.fst :=
          (prioritized_lcvs_perm asg).mem_iff.mp ha
        simp only [beq_iff_eq]
        exact fun h => hp (h ▸ hak))
    rw [h1, hmapped, List.countP_append, h2, Nat.zero_add]
    exact List.count_replicate_self _ _
  · intro e he
    have hm : e.Allocated_LCV ∈
        ((allocate_lcvs_to_routes_api data ids asg).map
          (fun x => x.Allocated_LCV)).drop asg.length := by
      rw [← List.map_drop]
      exact List.mem_map_of_mem _ he
    rw [hmapped, ← hqlen, List.drop_left] at hm
    exact List.eq_of_mem_replicate hm
  · intro e he
    have hm : e.Allocated_LCV ∈
        ((allocate_lcvs_to_routes_api data ids asg).map
          (fun x => x.Allocated_LCV)).take asg.length := by
      rw [← List.map_take]
      exact List.mem_map_of_mem _ he
    rw [hmapped, ← hqlen, List.take_left] at hm
    have hmk : e.Allocated_LCV ∈ asg.map Prod.fst :=
      (prioritized_lcvs_perm asg).mem_iff.mp hm
    exact fun h => hp (h ▸ hmk)

/-- Witness for C5 (amended): one vehicle, two selected routes, exactly
one pending entry. -/
theorem claim_C5_witness :
    (allocate_lcvs_to_routes_api [rowR1, rowR2] ["r1", "r2"]
        [("v1", "Stage 3 (Filled – Waiting Area/Moving to DBS)")]).countP
      (fun e => e.Allocated_LCV == "Pending") = 1 := by
  exact ((claim_C5_amended [rowR1, rowR2] ["r1", "r2"]
    [("v1", "Stage 3 (Filled – Waiting Area/Moving to DBS)")]
    (by decide) (by decide)).1).trans (by decide)

/-- C9: when the mapping contains a vehicle whose identifier is the
literal string "Pending" and that vehicle gets assigned (there are at
least as many selected routes as vehicles), the number of entries whose
`Allocated_LCV` equals "Pending" is one more than — and in particular
strictly exceeds — the number of routes left without a vehicle. -/
theorem claim_C9 (data : List Row) (ids : List String)
    (asg : List (String × String))
    (hnd : (asg.map Prod.fst).Nodup)
    (hmem : "Pending" ∈ asg.map Prod.fst)
    (hle : asg.length ≤ (selected_data data ids).length) :
    (allocate_lcvs_to_routes_api data ids asg).countP
        (fun e => e.Allocated_LCV == "Pending")
      = ((selected_data data ids).length - asg.length) + 1
    ∧ (selected_data data ids).length - asg.length
        < (allocate_lcvs_to_routes_api data ids asg).countP
            (fun e => e.Allocated_LCV == "Pending") := by
  have hlen1 : 0 < asg.length := by
    have := List.length_pos_of_mem hmem
    simpa using this
  have hne : ¬ (selected_data data ids).isEmpty = true := by
    rw [List.isEmpty_iff]
    intro h
    rw [h] at hle
    simp only [List.length_nil, Nat.le_zero] at hle
    omega
  have hqlen : (prioritized_lcvs asg).length = asg.length :=
    length_prioritized_lcvs asg
  have hmapped := allocate_map_lcv data ids asg hne
  have htake : (prioritized_lcvs asg).take (selected_data data ids).length
      = prioritized_lcvs asg :=
    List.take_of_length_le (by omega)
  rw [htake] at hmapped
  have hq_nodup : (prioritized_lcvs asg).Nodup :=
    ((prioritized_lcvs_perm asg).symm).nodup hnd
  have hq_mem : "Pending" ∈ prioritized_lcvs asg :=
    (prioritized_lcvs_perm asg).mem_iff.mpr hmem
  have hcount : (prioritized_lcvs asg).countP (fun s => s == "Pending") = 1 :=
    List.count_eq_one_of_mem hq_nodup hq_mem
  have h1 : (allocate_lcvs_to_routes_api data ids asg).countP
      (fun e => e.Allocated_LCV == "Pending")
      = ((allocate_lcvs_to_routes_api data ids asg).map
          (fun e => e.Allocated_LCV)).countP (fun s => s == "Pending") := by
    rw [List.countP_map]
    rfl
  have hrep : (List.replicate
      ((selected_data data ids).length - asg.length) "Pending").countP
      (fun s => s == "Pending")
      = (selected_data data ids).length - asg.length :=
    List.count_replicate_self _ _
  have heq : (allocate_lcvs_to_routes_api data ids asg).countP
      (fun e => e.Allocated_LCV == "Pending")
      = ((selected_data data ids).length - asg.length) + 1 := by
    rw [h1, hmapped, List.countP_append, hcount, hrep]
    omega
  exact ⟨heq, by omega⟩

/-- Witness for C9: one vehicle named "Pending", two selected routes; two
entries carry the sentinel while only one route is unassigned. -/
theorem claim_C9_witness :
    (selected_data [rowR1, rowR2] ["r1", "r2"]).length
        - [("Pending", "Stage 1 (Empty - Waiting Area)")].length
      < (allocate_lcvs_to_routes_api [rowR1, rowR2] ["r1", "r2"]
            [("Pending", "Stage 1 (Empty - Waiting Area)")]).countP
          (fun e => e.Allocated_LCV == "Pending") := by
  exact (claim_C9 [rowR1, rowR2] ["r1", "r2"]
    [("Pending", "Stage 1 (Empty - Waiting Area)")]
    (by decide) (by decide) (by decide)).2

/-- Evaluation of the endpoint once the date has parsed: the remaining
control flow depends only on the date+MGS filter and the allocation
result. -/
theorem create_allocation_some_parse (parseDate : String → Option PyDate)
    (rows : List Row) (date mgs : String) (ids : List String)
    (asg : List (String × String)) (d : PyDate)
    (hd : parseDate date = some d) :
    create_allocation parseDate (some rows) date mgs ids asg =
      if (rows.filter
          (fun r => decide (r.date_only = d) && (r.MGS == mgs))).isEmpty then
        ApiResult.err 404 "No data found for the selected date and MGS."
      else if (allocate_lcvs_to_routes_api
          (rows.filter (fun r => decide (r.date_only = d) && (r.MGS == mgs)))
          ids asg).isEmpty then
        ApiResult.err 404 "None of the selected request_ids were found in the dataset for the given date and MGS."
      else
        ApiResult.ok (allocate_lcvs_to_routes_api
          (rows.filter (fun r => decide (r.date_only = d) && (r.MGS == mgs)))
          ids asg) := by
  unfold create_allocation
  rw [hd]

/-- C7: checked in order, the endpoint returns exactly one of the five
specified outcomes — 500 if the dataset is unavailable, 400 if the date
does not parse, 404 if date+MGS matches nothing, 404 if none of the
requested ids occur among the matched rows, and otherwise 200 with the
(nonempty) allocation list. -/
theorem claim_C7 (parseDate : String → Option PyDate) (df : Option (List Row))
    (date mgs : String) (ids : List String) (asg : List (String × String)) :
    (df = none → create_allocation parseDate df date mgs ids asg
        = ApiResult.err 500 "Data could not be loaded. API is non-operational.")
    ∧ (∀ rows, df = some rows → parseDate date = none →
        create_allocation parseDate df date mgs ids asg
          = ApiResult.err 400 "Invalid date format. Please use YYYY-MM-DD.")
    ∧ (∀ rows d, df = some rows → parseDate date = some d →
        (rows.filter (fun r => decide (r.date_only = d) && (r.MGS == mgs)) = [] →
          create_allocation parseDate df date mgs ids asg
            = ApiResult.err 404 "No data found for the selected date and MGS.")
        ∧ (rows.filter (fun r => decide (r.date_only = d) && (r.MGS == mgs)) ≠ [] →
            selected_data
              (rows.filter (fun r => decide (r.date_only = d) && (r.MGS == mgs)))
              ids = [] →
            create_allocation parseDate df date mgs ids asg
              = ApiResult.err 404 "None of the selected request_ids were found in the dataset for the given date and MGS.")
        ∧ (rows.filter (fun r => decide (r.date_only = d) && (r.MGS == mgs)) ≠ [] →
            selected_data
              (rows.filter (fun r => decide (r.date_only = d) && (r.MGS == mgs)))
              ids ≠ [] →
            create_allocation parseDate df date mgs ids asg
              = ApiResult.ok (allocate_lcvs_to_routes_api
                  (rows.filter (fun r => decide (r.date_only = d) && (r.MGS == mgs)))
                  ids asg)
            ∧ allocate_lcvs_to_routes_api
                (rows.filter (fun r => decide (r.date_only = d) && (r.MGS == mgs)))
                ids asg ≠ []))
    ∧ (create_allocation parseDate df date mgs ids asg
          = ApiResult.err 500 "Data could not be loaded. API is non-operational."
        ∨ create_allocation parseDate df date mgs ids asg
          = ApiResult.err 400 "Invalid date format. Please use YYYY-MM-DD."
        ∨ create_allocation parseDate df date mgs ids asg
          = ApiResult.err 404 "No data found for the selected date and MGS."
        ∨ create_allocation parseDate df date mgs ids asg
          = ApiResult.err 404 "None of the selected request_ids were found in the dataset for the given date and MGS."
        ∨ ∃ es, es ≠ [] ∧
            create_allocation parseDate df date mgs ids asg = ApiResult.ok es) := by
  cases df with
  | none =>
    refine ⟨fun _ => rfl, ?_, ?_, Or.inl rfl⟩
    · intro rows h
      exact absurd h (by simp)
    · intro rows d h
      exact absurd h (by simp)
  | some rows0 =>
    have h400 : parseDate date = none →
        create_allocation parseDate (some rows0) date mgs ids asg
          = ApiResult.err 400 "Invalid date format. Please use YYYY-MM-DD." := by
      intro hparse
      unfold create_allocation
      rw [hparse]
    refine ⟨fun h => absurd h (by simp), ?_, ?_, ?_⟩
    · intro rows h hparse
      injection h with h2
      subst h2
      exact h400 hparse
    · intro rows d h hparse
      injection h with h2
      subst h2
      refine ⟨?_, ?_, ?_⟩
      · intro hf
        rw [create_allocation_some_parse parseDate rows0 date mgs ids asg d hparse]
        rw [if_pos (List.isEmpty_iff.mpr hf)]
      · intro hfne hsel
        rw [create_allocation_some_parse parseDate rows0 date mgs ids asg d hparse]
        rw [if_neg (fun hx => hfne (List.isEmpty_iff.mp hx))]
        rw [if_pos (List.isEmpty_iff.mpr
          ((allocate_eq_nil_iff _ ids asg).mpr hsel))]
      · intro hfne hsel
        rw [create_allocation_some_parse parseDate rows0 date mgs ids asg d hparse]
        rw [if_neg (fun hx => hfne (List.isEmpty_iff.mp hx))]
        rw [if_neg (fun hx =>
          hsel ((allocate_eq_nil_iff _ ids asg).mp (List.isEmpty_iff.mp hx)))]
        exact ⟨rfl, fun hx => hsel ((allocate_eq_nil_iff _ ids asg).mp hx)⟩
    · cases hpd : parseDate date with
      | none => exact Or.inr (Or.inl (h400 hpd))
      | some d0 =>
        rw [create_allocation_some_parse parseDate rows0 date mgs ids asg d0 hpd]
        by_cases hf : (rows0.filter
            (fun r => decide (r.date_only = d0) && (r.MGS == mgs))).isEmpty
        · rw [if_pos hf]
          exact Or.inr (Or.inr (Or.inl rfl))
        · rw [if_neg hf]
          by_cases ha : (allocate_lcvs_to_routes_api
              (rows0.filter (fun r => decide (r.date_only = d0) && (r.MGS == mgs)))
              ids asg).isEmpty
          · rw [if_pos ha]
            exact Or.inr (Or.inr (Or.inr (Or.inl rfl)))
          · rw [if_neg ha]
            refine Or.inr (Or.inr (Or.inr (Or.inr ⟨_, ?_, rfl⟩)))
            exact fun hx => ha (List.isEmpty_iff.mpr hx)

/-- A concrete strict (ISO-only) date parser used to instantiate the
abstract `parseDate` parameter in witnesses. -/
def parseW : String → Option PyDate :=
  fun s => if s = "2024-07-16" then some dateJul16 else none

/-- Witness for C7: the 500 outcome when the dataset failed to load, and
the 400 outcome on an unparseable date. -/
theorem claim_C7_witness :
    create_allocation parseW none "2024-07-16" "MGS1" [] []
      = ApiResult.err 500 "Data could not be loaded. API is non-operational."
    ∧ create_allocation parseW (some [rowR1]) "bad-date" "MGS1" ["r1"] []
      = ApiResult.err 400 "Invalid date format. Please use YYYY-MM-DD." := by
  refine ⟨(claim_C7 parseW none "2024-07-16" "MGS1" [] []).1 rfl, ?_⟩
  exact (claim_C7 parseW (some [rowR1]) "bad-date" "MGS1" ["r1"] []).2.1
    [rowR1] rfl (by decide)

/-- `allocStep` writes only the queue and the accumulator. -/
theorem allocStep_frame (s : AllocState) (r : Row) :
    (allocStep s r).data = s.data
    ∧ (allocStep s r).request_ids = s.request_ids
    ∧ (allocStep s r).lcv_assignments = s.lcv_assignments := by
  unfold allocStep
  cases s.lcvs_to_allocate <;> exact ⟨rfl, rfl, rfl⟩

/-- Folding the loop over any route list leaves the input fields of the
state untouched. -/
theorem foldl_allocStep_frame (rows : List Row) :
    ∀ s : AllocState,
      (rows.foldl allocStep s).data = s.data
      ∧ (rows.foldl allocStep s).request_ids = s.request_ids
      ∧ (rows.foldl allocStep s).lcv_assignments = s.lcv_assignments := by
  induction rows with
  | nil => exact fun s => ⟨rfl, rfl, rfl⟩
  | cons r rs ih =>
    intro s
    have h1 := allocStep_frame s r
    have h2 := ih (allocStep s r)
    refine ⟨?_, ?_, ?_⟩ <;> rw [List.foldl_cons]
    · rw [h2.1, h1.1]
    · rw [h2.2.1, h1.2.1]
    · rw [h2.2.2, h1.2.2]

/-- The imperative fold computes exactly the functional loop. -/
theorem foldl_allocStep_allocations (rows : List Row) :
    ∀ (q : List String) (acc : List AllocationEntry) (d : List Row)
      (i : List String) (a : List (String × String)),
      (rows.foldl allocStep ⟨d, i, a, q, acc⟩).allocations
        = acc ++ allocLoop rows q := by
  induction rows with
  | nil => intro q acc d i a; simp [allocLoop]
  | cons r rs ih =>
    intro q acc d i a
    cases q with
    | nil =>
      rw [List.foldl_cons]
      have hstep : allocStep ⟨d, i, a, [], acc⟩ r
          = ⟨d, i, a, [], acc ++ [mkEntry r "Pending"]⟩ := rfl
      rw [hstep, ih]
      simp [allocLoop]
    | cons v vs =>
      rw [List.foldl_cons]
      have hstep : allocStep ⟨d, i, a, v :: vs, acc⟩ r
          = ⟨d, i, a, vs, acc ++ [mkEntry r v]⟩ := rfl
      rw [hstep, ih]
      simp [allocLoop]

/-- C8: the allocator is pure — run in state-passing form (with the
`pop(0)` mutation made explicit on the working queue), it leaves the route
data, the requested ids and the vehicle-stage mapping exactly as they
were, its accumulated output is exactly the functional allocator's output,
and calling the allocator twice on identical inputs gives identical
output. -/
theorem claim_C8 (data : List Row) (ids : List String)
    (asg : List (String × String)) :
    (allocate_run data ids asg).data = data
    ∧ (allocate_run data ids asg).request_ids = ids
    ∧ (allocate_run data ids asg).lcv_assignments = asg
    ∧ (allocate_run data ids asg).allocations
        = allocate_lcvs_to_routes_api data ids asg
    ∧ allocate_lcvs_to_routes_api data ids asg
        = allocate_lcvs_to_routes_api data ids asg := by
  unfold allocate_run
  by_cases hsel : (selected_data data ids).isEmpty
  · rw [if_pos hsel]
    refine ⟨rfl, rfl, rfl, ?_, rfl⟩
    exact ((allocate_eq_nil_iff data ids asg).mpr
      (List.isEmpty_iff.mp hsel)).symm
  · rw [if_neg hsel]
    have hf := foldl_allocStep_frame
      (sorted_routes_desc (selected_data data ids))
      ⟨data, ids, asg, prioritized_lcvs asg, []⟩
    have ha := foldl_allocStep_allocations
      (sorted_routes_desc (selected_data data ids))
      (prioritized_lcvs asg) [] data ids asg
    refine ⟨hf.1, hf.2.1, hf.2.2, ?_, rfl⟩
    rw [ha, List.nil_append, allocate_eq_allocLoop data ids asg hsel]

/-- C10: the endpoint's date validation is parser-driven, not
format-enforcing — with the dataset loaded, the 400 outcome occurs exactly
when the abstract parser rejects the string, and every string the parser
accepts proceeds to the dataset query (the outcome is then one of the two
404s or a 200 determined by the date+MGS filter). -/
theorem claim_C10 (parseDate : String → Option PyDate) (rows : List Row)
    (date mgs : String) (ids : List String) (asg : List (String × String)) :
    (create_allocation parseDate (some rows) date mgs ids asg
        = ApiResult.err 400 "Invalid date format. Please use YYYY-MM-DD."
      ↔ parseDate date = none)
    ∧ (∀ d, parseDate date = some d →
        (create_allocation parseDate (some rows) date mgs ids asg
            = ApiResult.err 404 "No data found for the selected date and MGS."
          ∨ create_allocation parseDate (some rows) date mgs ids asg
            = ApiResult.err 404 "None of the selected request_ids were found in the dataset for the given date and MGS."
          ∨ create_allocation parseDate (some rows) date mgs ids asg
            = ApiResult.ok (allocate_lcvs_to_routes_api
                (rows.filter (fun r => decide (r.date_only = d) && (r.MGS == mgs)))
                ids asg))) := by
  cases hpd : parseDate date with
  | none =>
    refine ⟨⟨fun _ => rfl, fun _ => ?_⟩, fun d hd => absurd hd (by simp)⟩
    unfold create_allocation
    rw [hpd]
  | some d0 =>
    refine ⟨⟨?_, ?_⟩, ?_⟩
    · intro h
      exfalso
      rw [create_allocation_some_parse parseDate rows date mgs ids asg d0 hpd] at h
      by_cases hf : (rows.filter
          (fun r => decide (r.date_only = d0) && (r.MGS == mgs))).isEmpty
      · rw [if_pos hf] at h
        exact absurd h (by simp)
      · rw [if_neg hf] at h
        by_cases ha : (allocate_lcvs_to_routes_api
            (rows.filter (fun r => decide (r.date_only = d0) && (r.MGS == mgs)))
            ids asg).isEmpty
        · rw [if_pos ha] at h
          exact absurd h (by simp)
        · rw [if_neg ha] at h
          exact absurd h (by simp)
    · intro h
      exact absurd h (by simp)
    · intro d hd
      have hdd : d0 = d := Option.some.inj hd
      subst hdd
      rw [create_allocation_some_parse parseDate rows date mgs ids asg d0 hpd]
      by_cases hf : (rows.filter
          (fun r => decide (r.date_only = d0) && (r.MGS == mgs))).isEmpty
      · rw [if_pos hf]
        exact Or.inl rfl
      · rw [if_neg hf]
        by_cases ha : (allocate_lcvs_to_routes_api
            (rows.filter (fun r => decide (r.date_only = d0) && (r.MGS == mgs)))
            ids asg).isEmpty
        · rw [if_pos ha]
          exact Or.inr (Or.inl rfl)
        · rw [if_neg ha]
          exact Or.inr (Or.inr rfl)

/-- A lenient date parser accepting several formats for the same calendar
date, in the style of `pd.to_datetime`, used to instantiate the abstract
parser in the C10 witness. -/
def parseLenient : String → Option PyDate := fun s =>
  if s = "2024-07-16" then some dateJul16
  else if s = "2024/07/16" then some dateJul16
  else if s = "July 16, 2024" then some dateJul16
  else none

/-- Witness for C10: an unparseable string yields 400, while the non-ISO
string "2024/07/16" is accepted by the lenient parser and proceeds past
date validation to the dataset query. -/
theorem claim_C10_witness :
    create_allocation parseLenient (some [rowR1]) "not-a-date" "MGS1" ["r1"] []
      = ApiResult.err 400 "Invalid date format. Please use YYYY-MM-DD."
    ∧ (create_allocation parseLenient (some [rowR1]) "2024/07/16" "MGS1" ["r1"] []
        = ApiResult.err 404 "No data found for the selected date and MGS."
      ∨ create_allocation parseLenient (some [rowR1]) "2024/07/16" "MGS1" ["r1"] []
        = ApiResult.err 404 "None of the selected request_ids were found in the dataset for the given date and MGS."
      ∨ create_allocation parseLenient (some [rowR1]) "2024/07/16" "MGS1" ["r1"] []
        = ApiResult.ok (allocate_lcvs_to_routes_api
            ([rowR1].filter
              (fun r => decide (r.date_only = dateJul16) && (r.MGS == "MGS1")))
            ["r1"] [])) := by
  constructor
  · exact (claim_C10 parseLenient [rowR1] "not-a-date" "MGS1" ["r1"] []).1.mpr
      (by decide)
  · exact (claim_C10 parseLenient [rowR1] "2024/07/16" "MGS1" ["r1"] []).2
      dateJul16 (by decide)
